import Mathlib

set_option maxRecDepth 20000

/-!
Shallow embedding of src/app.py (a Flask service relaying Zendesk webhook
events to a Discord webhook, and creating Zendesk tickets from Discord).

Modelling conventions:
  * JSON values are the inductive `Json`; Python dictionaries are association
    lists with distinct keys (lookup takes the first match).
  * Python truthiness (`if x:`) is the Bool function `truthy`; the Python
    `or` operator on possibly-missing values is `pyOr` / `pyOrJ`.
  * `d.get(k)` on a non-dictionary raises AttributeError; `d[k]` raises
    KeyError / TypeError.  Both are modelled by `Except String`.
  * `str(x)` is `pyStr`; its container cases follow the shape of repr output
    but omit quote-escaping inside strings (irrelevant to every property
    proved below).  `.lower()` is `pyLower` (ASCII case folding, as all
    compared literals are ASCII).
  * Outbound HTTP requests are recorded in an explicit call list; the
    responses of Discord and Zendesk are inputs of the embedded handlers
    (`Option` with `none` standing for a transport-level exception).
  * Wall-clock timestamps, log printing that cannot raise, the response
    `details` field (a truncated upstream body echo), and the constant
    embed footer of the webhook notification are not modelled; an outbound
    Discord call records the embed title, description and color.
  * Crucially, the module imports of app.py (lines 1-4) do NOT import the
    `json` module, while lines 193, 200 and 332 call `json.dumps`.  Any
    execution reaching those lines raises `NameError: name \x27json\x27 is
    not defined`; the embedding reproduces this via explicit error values.
-/

/-- JSON/Python value tree handled by the service. -/
inductive Json where
  | null : Json
  | bool : Bool → Json
  | int : Int → Json
  | str : String → Json
  | arr : List Json → Json
  | obj : List (String × Json) → Json

/-- First-match lookup in an association list (Python dict access). -/
def lookupKvs : List (String × Json) → String → Option Json
  | [], _ => none
  | (k, v) :: rest, key => if k = key then some v else lookupKvs rest key

/-- Python truthiness of a JSON value. -/
def truthy : Json → Bool
  | .null => false
  | .bool b => b
  | .int n => n != 0
  | .str s => s != ""
  | .arr xs => !xs.isEmpty
  | .obj kvs => !kvs.isEmpty

/-- Python truthiness of a variable that may hold None. -/
def truthyOpt (o : Option Json) : Bool :=
  truthy (o.getD Json.null)

/-- Python `a or b` where both operands may be None. -/
def pyOr (a b : Option Json) : Option Json :=
  match a with
  | some v => if truthy v then some v else b
  | none => b

/-- Python `a or b` where the right operand is a literal (never None). -/
def pyOrJ (a : Option Json) (b : Json) : Json :=
  match a with
  | some v => if truthy v then v else b
  | none => b

/-- Python `d.get(k)`: only dictionaries respond to `.get`. -/
def dictGet (j : Json) (k : String) : Except String (Option Json) :=
  match j, k with
  | .obj kvs, key => .ok (lookupKvs kvs key)
  | _, _ => .error "AttributeError: object has no attribute get"

/-- Python `d[k]` indexing with KeyError / TypeError on failure. -/
def pyIndex (j : Json) (k : String) : Except String Json :=
  match j, k with
  | .obj kvs, key =>
    match lookupKvs kvs key with
    | some v => .ok v
    | none => .error ("KeyError: \x27" ++ key ++ "\x27")
  | _, _ => .error "TypeError: object is not subscriptable"

mutual

/-- Python repr() of a JSON value (quote-escaping inside strings omitted). -/
def pyRepr : Json → String
  | .null => "None"
  | .bool true => "True"
  | .bool false => "False"
  | .int n => toString n
  | .str s => "\x27" ++ s ++ "\x27"
  | .arr xs => "[" ++ pyReprSeq xs ++ "]"
  | .obj kvs => "\x7b" ++ pyReprKvs kvs ++ "\x7d"

/-- Comma-separated repr of list elements. -/
def pyReprSeq : List Json → String
  | [] => ""
  | [x] => pyRepr x
  | x :: y :: rest => pyRepr x ++ ", " ++ pyReprSeq (y :: rest)

/-- Comma-separated repr of dict entries. -/
def pyReprKvs : List (String × Json) → String
  | [] => ""
  | [(k, v)] => "\x27" ++ k ++ "\x27: " ++ pyRepr v
  | (k, v) :: y :: rest => "\x27" ++ k ++ "\x27: " ++ pyRepr v ++ ", " ++ pyReprKvs (y :: rest)

end

/-- Python str() of a JSON value, as used by f-string interpolation. -/
def pyStr : Json → String
  | .str s => s
  | v => pyRepr v

/-- Python `s.lower()` (ASCII case folding). -/
def pyLower (s : String) : String :=
  ⟨s.data.map Char.toLower⟩

/-- Python `needle in hay` substring containment on strings. -/
def pySubstrB (hay needle : String) : Bool :=
  decide (needle.data <:+: hay.data)

/-- Hardcoded CONFIG of app.py, lines 11-16. -/
def ZENDESK_SUBDOMAIN : String := "btccexchange"

/-- Hardcoded CONFIG of app.py, lines 11-16. -/
def ZENDESK_EMAIL : String := "kevin.ezekiel@cloudsense.asia"

/-- Hardcoded CONFIG of app.py, lines 11-16. -/
def ZENDESK_API_TOKEN : String := "KwMUBq32vDbPgYUCIWv6hLBrAvElR7CTWjMlyejs"

/-- Hardcoded CONFIG of app.py, lines 11-16. -/
def DISCORD_WEBHOOK_URL : String := "https://discord.com/api/webhooks/1438723422627692634/EDOAb93cPQGQDYru5HWfNtYLpCrvWr-X4fVfn7niIgkvYQdE_3rjqt3q474mTPoJlFD-"

/-- JSON body of the structured response sent back by a route handler. -/
structure HttpResponse where
  code : Nat
  status : String
  message : String
  ticket_id : Option Json

/-- One outbound HTTP request issued by a handler: a Zendesk ticket-create
POST, or a Discord webhook POST (title, description, color of the embed). -/
inductive OutboundCall where
  | zendesk : Json → OutboundCall
  | discord : String → String → Nat → OutboundCall

/-- Result of running a route handler: response plus outbound requests, in
order of issue. -/
structure HandlerResult where
  resp : HttpResponse
  calls : List OutboundCall

/-- Extracted (ticket_id, comment_body, author_name) of app.py lines 221-240. -/
structure Triple where
  ticket_id : Option Json
  comment_body : Option Json
  author_name : Json

/-- Extraction method 1 of app.py lines 226-233 (payload has a ticket field). -/
def extractM1 (ticket : Json) : Except String Triple :=
  match dictGet ticket "id", dictGet ticket "comment" with
  | .ok tid, .ok co =>
    let comment := co.getD (Json.obj [])
    match dictGet comment "body", dictGet comment "value", dictGet comment "author" with
    | .ok b, .ok v, .ok ao =>
      let authorInfo := ao.getD (Json.obj [])
      match dictGet authorInfo "name", dictGet authorInfo "author_name" with
      | .ok nm, .ok anm =>
        .ok ⟨tid, pyOr b v, pyOrJ nm (anm.getD (Json.str "Support Agent"))⟩
      | _, _ => .error "AttributeError: object has no attribute get"
    | _, _, _ => .error "AttributeError: object has no attribute get"
  | _, _ => .error "AttributeError: object has no attribute get"

/-- Extraction method 2 of app.py lines 236-239 (flat dictionary payload). -/
def extractM2 (kvs : List (String × Json)) : Triple :=
  ⟨pyOr (lookupKvs kvs "ticket_id") (lookupKvs kvs "id"),
   pyOr (pyOr (pyOr (lookupKvs kvs "body") (lookupKvs kvs "comment"))
     (lookupKvs kvs "latest_comment")) (lookupKvs kvs "value"),
   pyOrJ (pyOr (lookupKvs kvs "author_name") (lookupKvs kvs "author"))
     (Json.str "Support Agent")⟩

/-- Field extraction of app.py lines 221-240.  A payload that is not a
dictionary keeps the initial values (None, None, Support Agent). -/
def extractTriple (data : Json) : Except String Triple :=
  match data with
  | .obj kvs =>
    match lookupKvs kvs "ticket" with
    | some t => extractM1 t
    | none => .ok (extractM2 kvs)
  | _ => .ok ⟨none, none, Json.str "Support Agent"⟩

/-- Python slicing `x[:100]` succeeds only on sequences; app.py line 244
slices comment_body inside a debug print whenever it is truthy. -/
def pySliceOk : Json → Bool
  | .str _ => true
  | .arr _ => true
  | _ => false

/-- True when the debug print of app.py line 244 raises TypeError. -/
def sliceRaise (o : Option Json) : Bool :=
  truthyOpt o && !pySliceOk (o.getD Json.null)

/-- Loop guard of app.py line 259: suppress when the lowercased str() of the
author contains the sentinel substring used for synthesized requesters. -/
def loopGuardFires (author : Json) : Bool :=
  pySubstrB (pyLower (pyStr author)) "discord-"

/-- Webhook processing of app.py lines 210-310 applied to the parsed payload:
Discord-configuration check, field extraction, comment-body validation,
ticket-id placeholder, loop guard, Discord POST and response classification.
`discordResp` is the Discord webhook HTTP status (`none` = transport
exception).  Exceptions escaping any step land in the handler catch of lines
303-310.  Outbound calls record the embed title, description and color. -/
def processPayload (data : Json) (discordResp : Option Nat) : HandlerResult :=
  if pySubstrB DISCORD_WEBHOOK_URL "YOUR_ACTUAL" then
    ⟨⟨500, "error", "Discord webhook URL not configured. Update CONFIG in app.py", none⟩, []⟩
  else
    match extractTriple data with
    | .error e => ⟨⟨500, "error", "Server error: " ++ e, none⟩, []⟩
    | .ok t =>
      if sliceRaise t.comment_body then
        ⟨⟨500, "error", "Server error: TypeError: object is not subscriptable", none⟩, []⟩
      else if !truthyOpt t.comment_body then
        ⟨⟨400, "error", "No comment text found in webhook data", none⟩, []⟩
      else
        let tid := match t.ticket_id with
          | some v => if truthy v then v else Json.str "Unknown"
          | none => Json.str "Unknown"
        if loopGuardFires t.author_name then
          ⟨⟨200, "success", "Ignored Discord user comment", none⟩, []⟩
        else
          let call := OutboundCall.discord
            ("💬 Update on Ticket #" ++ pyStr tid)
            ("**From " ++ pyStr t.author_name ++ ":**\n\n"
              ++ pyStr (t.comment_body.getD Json.null))
            3447003
          match discordResp with
          | none => ⟨⟨500, "error", "Server error: ConnectionError", none⟩, [call]⟩
          | some code =>
            if code = 204 then
              ⟨⟨200, "success", "Comment sent to Discord successfully", none⟩, [call]⟩
            else
              ⟨⟨500, "error", "Discord API returned " ++ toString code, none⟩, [call]⟩

/-- HTTP method of an inbound request. -/
inductive HttpMethod where
  | get : HttpMethod
  | post : HttpMethod

/-- Inbound request to /zendesk-webhook: method, whether the declared content
type is JSON (`request.is_json`), the body parsed as JSON (`none` when the
body is not valid JSON), and the raw body text. -/
structure WebhookRequest where
  method : HttpMethod
  declaredJson : Bool
  parsedBody : Option Json
  rawBody : String

/-- Payload acquisition of app.py lines 188-208.  With a JSON content type,
`request.get_json()` either raises on a malformed body or succeeds, after
which line 193 evaluates `json.dumps` on the unbound name `json` and raises
NameError; both exceptions escape to the handler catch.  Without a JSON
content type, the forced silent parse of line 197 never raises, and the
NameError of line 200 (reached when the parse produced a truthy value) is
absorbed by the inner catch of lines 205-208, so `data` is always a
dictionary holding the raw body text. -/
def parseStage (req : WebhookRequest) : Except String Json :=
  if req.declaredJson then
    match req.parsedBody with
    | some _ => .error "name \x27json\x27 is not defined"
    | none => .error "400 Bad Request: Failed to decode JSON object"
  else
    .ok (match req.parsedBody with
      | some d =>
        if truthy d then
          Json.obj [("raw_data", Json.str req.rawBody),
                    ("error", Json.str "name \x27json\x27 is not defined")]
        else
          Json.obj [("raw_data", Json.str req.rawBody)]
      | none => Json.obj [("raw_data", Json.str req.rawBody)])

/-- Route handler of app.py lines 168-310 (/zendesk-webhook).  GET returns the
readiness acknowledgment; POST runs payload acquisition and then the
processing of lines 210-301, with the catch of lines 303-310 converting any
escaped exception into an HTTP 500 error response. -/
def zendesk_webhook (req : WebhookRequest) (discordResp : Option Nat) : HandlerResult :=
  match req.method with
  | .get => ⟨⟨200, "ready", "Zendesk webhook endpoint is active", none⟩, []⟩
  | .post =>
    match parseStage req with
    | .error e => ⟨⟨500, "error", "Server error: " ++ e, none⟩, []⟩
    | .ok data => processPayload data discordResp

/-- Response of the Zendesk ticket-creation POST: HTTP status, body parsed as
JSON (`none` when `response.json()` would raise), and the body text. -/
structure ZendeskResponse where
  status : Nat
  bodyJson : Option Json
  text : String

/-- Request data of app.py line 99: `request.get_json() or \x7b\x7d`. -/
def dataOf (parsed : Option Json) : Json :=
  match parsed with
  | some d => if truthy d then d else Json.obj []
  | none => Json.obj []

/-- Field reads of app.py lines 108-110 with their literal defaults; raises
AttributeError when the payload is not a dictionary. -/
def createFields (data : Json) : Except String (Json × Json × Json) :=
  match dictGet data "subject", dictGet data "description", dictGet data "user" with
  | .ok s, .ok d, .ok u =>
    .ok (s.getD (Json.str "Support Request"),
         d.getD (Json.str "No description provided"),
         u.getD (Json.str "Discord User"))
  | _, _, _ => .error "AttributeError: object has no attribute get"

/-- Requester email synthesized at app.py line 122: discord-{user}@company.com. -/
def synthEmail (user : Json) : String :=
  "discord-" ++ pyStr user ++ "@company.com"

/-- Zendesk ticket payload built at app.py lines 113-126. -/
def buildTicketData (subject description user : Json) : Json :=
  Json.obj [("ticket", Json.obj [
    ("subject", Json.str ("Discord: " ++ pyStr subject)),
    ("comment", Json.obj [
      ("body", Json.str ("From: " ++ pyStr user ++ "\n\n" ++ pyStr description)),
      ("public", Json.bool true)]),
    ("requester", Json.obj [
      ("name", user),
      ("email", Json.str (synthEmail user))]),
    ("tags", Json.arr [Json.str "discord", Json.str "railway"])])]

/-- Ticket id read at app.py line 136: `response.json()[\x27ticket\x27][\x27id\x27]`. -/
def getTicketId (bodyJson : Option Json) : Except String Json :=
  match bodyJson with
  | none => .error "JSONDecodeError: Expecting value"
  | some b =>
    match pyIndex b "ticket" with
    | .ok t => pyIndex t "id"
    | .error e => .error e

/-- Route handler of app.py lines 95-166 (/create-ticket).  `zenResp` is the
Zendesk API response (`none` = transport exception on the POST of lines
128-133); `discordResp` is the Discord webhook response for the notification
POST of line 148 (`none` = transport exception; the code never reads the
returned status, so its value is otherwise irrelevant).  The catch of lines
162-166 converts any escaped exception into an HTTP 500 error response whose
message is the exception text. -/
def create_ticket (parsed : Option Json) (zenResp : Option ZendeskResponse)
    (discordResp : Option Nat) : HandlerResult :=
  let data := dataOf parsed
  if pySubstrB ZENDESK_API_TOKEN "YOUR_ACTUAL" then
    ⟨⟨500, "error", "Zendesk not configured. Update ZENDESK_API_TOKEN in app.py file", none⟩, []⟩
  else
    match createFields data with
    | .error e => ⟨⟨500, "error", e, none⟩, []⟩
    | .ok (subject, description, user) =>
      let zcall := OutboundCall.zendesk (buildTicketData subject description user)
      match zenResp with
      | none => ⟨⟨500, "error", "ConnectionError", none⟩, [zcall]⟩
      | some r =>
        if r.status = 201 then
          match getTicketId r.bodyJson with
          | .error e => ⟨⟨500, "error", e, none⟩, [zcall]⟩
          | .ok tid =>
            if pySubstrB DISCORD_WEBHOOK_URL "YOUR_ACTUAL" then
              ⟨⟨200, "success", "Ticket created successfully", some tid⟩, [zcall]⟩
            else
              let dcall := OutboundCall.discord
                "🎫 New Ticket Created"
                ("**Ticket #" ++ pyStr tid ++ "**\n**User:** " ++ pyStr user
                  ++ "\n**Subject:** " ++ pyStr subject)
                3066993
              match discordResp with
              | none => ⟨⟨500, "error", "ConnectionError", none⟩, [zcall, dcall]⟩
              | some _ => ⟨⟨200, "success", "Ticket created successfully", some tid⟩, [zcall, dcall]⟩
        else
          ⟨⟨500, "error", "Zendesk API error: " ++ toString r.status, none⟩, [zcall]⟩

/-- Dictionary lookup used to state payload-shape hypotheses: returns the
value of a key when the JSON value is a dictionary containing it. -/
def jGet : Json → String → Option Json
  | .obj kvs, k => lookupKvs kvs k
  | _, _ => none

/-- The hardcoded Discord webhook URL passes the configuration check. -/
theorem discord_url_configured : pySubstrB DISCORD_WEBHOOK_URL "YOUR_ACTUAL" = false := rfl

/-- The hardcoded Zendesk token passes the configuration check. -/
theorem zendesk_token_configured : pySubstrB ZENDESK_API_TOKEN "YOUR_ACTUAL" = false := rfl

/-- A successful jGet exposes the dictionary shape of the value. -/
theorem jGet_some_obj (j : Json) (k : String) (v : Json) (h : jGet j k = some v) :
    ∃ kvs, j = Json.obj kvs ∧ lookupKvs kvs k = some v := by
  cases j <;> simp [jGet] at h
  exact ⟨_, rfl, h⟩

/-- C1: the end-to-end scenario fails on the code.  POSTing the scenario JSON
with a JSON content type reaches the debug print of app.py line 193, which
evaluates `json.dumps` although the `json` module is never imported; the
NameError is converted by the catch of lines 303-310 into HTTP 500 with
status "error", and no outbound call is issued.  The second conjunct runs the
very same payload through the post-parse processing of lines 210-301 and
obtains exactly the notification and response the claim describes, showing
the missing import is the sole obstacle. -/
theorem C1_scenario_breaks_on_missing_import :
    zendesk_webhook ⟨HttpMethod.post, true,
      some (Json.obj [("ticket", Json.obj [("id", Json.int 42),
        ("comment", Json.obj [("body", Json.str "Thanks!"),
          ("author", Json.obj [("name", Json.str "Jane")])])])]),
      "\x7b\"ticket\": \x7b\"id\": 42, \"comment\": \x7b\"body\": \"Thanks!\", \"author\": \x7b\"name\": \"Jane\"\x7d\x7d\x7d\x7d"⟩
      (some 204)
    = ⟨⟨500, "error", "Server error: name \x27json\x27 is not defined", none⟩, []⟩
    ∧ processPayload (Json.obj [("ticket", Json.obj [("id", Json.int 42),
        ("comment", Json.obj [("body", Json.str "Thanks!"),
          ("author", Json.obj [("name", Json.str "Jane")])])])]) (some 204)
      = ⟨⟨200, "success", "Comment sent to Discord successfully", none⟩,
         [OutboundCall.discord "💬 Update on Ticket #42" "**From Jane:**\n\nThanks!" 3447003]⟩ :=
  ⟨rfl, rfl⟩

/-- C2: every POST to /zendesk-webhook whose declared content type is JSON
raises (NameError on the unimported name json, or a parse error for a
malformed body), is caught by the outer exception branch, and yields HTTP 500
with status "error" and no outbound call. -/
theorem C2_json_posts_always_500_no_calls (req : WebhookRequest) (d : Option Nat)
    (hm : req.method = HttpMethod.post) (hj : req.declaredJson = true) :
    (zendesk_webhook req d).resp.code = 500
    ∧ (zendesk_webhook req d).resp.status = "error"
    ∧ (zendesk_webhook req d).calls = [] := by
  rcases req with ⟨m, dj, pb, raw⟩
  dsimp only at hm hj
  subst hm; subst hj
  cases pb <;> simp [zendesk_webhook, parseStage]

/-- C2 witness: a concrete JSON POST evaluates to the guaranteed outcome. -/
theorem C2_json_posts_always_500_no_calls_witness :
    (⟨HttpMethod.post, true, some (Json.obj [("ticket", Json.obj [("id", Json.int 5)])]),
      "\x7b\"ticket\": \x7b\"id\": 5\x7d\x7d"⟩ : WebhookRequest).method = HttpMethod.post
    ∧ (⟨HttpMethod.post, true, some (Json.obj [("ticket", Json.obj [("id", Json.int 5)])]),
      "\x7b\"ticket\": \x7b\"id\": 5\x7d\x7d"⟩ : WebhookRequest).declaredJson = true
    ∧ ((zendesk_webhook ⟨HttpMethod.post, true,
        some (Json.obj [("ticket", Json.obj [("id", Json.int 5)])]),
        "\x7b\"ticket\": \x7b\"id\": 5\x7d\x7d"⟩ (some 204)).resp.code = 500
      ∧ (zendesk_webhook ⟨HttpMethod.post, true,
        some (Json.obj [("ticket", Json.obj [("id", Json.int 5)])]),
        "\x7b\"ticket\": \x7b\"id\": 5\x7d\x7d"⟩ (some 204)).resp.status = "error"
      ∧ (zendesk_webhook ⟨HttpMethod.post, true,
        some (Json.obj [("ticket", Json.obj [("id", Json.int 5)])]),
        "\x7b\"ticket\": \x7b\"id\": 5\x7d\x7d"⟩ (some 204)).calls = []) :=
  ⟨rfl, rfl, C2_json_posts_always_500_no_calls _ (some 204) rfl rfl⟩

/-- C3 counterexample: a ticket payload carrying no comment body makes the
post-parse processing answer HTTP 400 with status "error" — not an "ignored"
outcome — though indeed without any outbound call. -/
theorem C3_counterexample_no_body_yields_error :
    (processPayload (Json.obj [("ticket", Json.obj [("id", Json.int 3)])]) (some 204)).resp.code = 400
    ∧ (processPayload (Json.obj [("ticket", Json.obj [("id", Json.int 3)])]) (some 204)).resp.status = "error"
    ∧ (processPayload (Json.obj [("ticket", Json.obj [("id", Json.int 3)])]) (some 204)).resp.status ≠ "ignored"
    ∧ (processPayload (Json.obj [("ticket", Json.obj [("id", Json.int 3)])]) (some 204)).calls = [] :=
  ⟨rfl, rfl, by decide, rfl⟩

/-- C3 amended: whenever the extracted comment_body is absent or falsy, the
post-parse processing responds HTTP 400 with status "error" and message "No
comment text found in webhook data", and issues no outbound call. -/
theorem C3_no_body_is_400_error_no_call (data : Json) (d : Option Nat) (t : Triple)
    (he : extractTriple data = .ok t) (hb : truthyOpt t.comment_body = false) :
    processPayload data d = ⟨⟨400, "error", "No comment text found in webhook data", none⟩, []⟩ := by
  unfold processPayload
  rw [discord_url_configured, he]
  simp [sliceRaise, hb]

/-- C3 witness: concrete application of the amended theorem. -/
theorem C3_no_body_is_400_error_no_call_witness :
    extractTriple (Json.obj [("ticket", Json.obj [("id", Json.int 8)])])
      = .ok ⟨some (Json.int 8), none, Json.str "Support Agent"⟩
    ∧ truthyOpt (Triple.comment_body ⟨some (Json.int 8), none, Json.str "Support Agent"⟩) = false
    ∧ processPayload (Json.obj [("ticket", Json.obj [("id", Json.int 8)])]) (some 204)
      = ⟨⟨400, "error", "No comment text found in webhook data", none⟩, []⟩ :=
  ⟨rfl, rfl, C3_no_body_is_400_error_no_call _ (some 204) _ rfl rfl⟩

/-- C4 counterexample: the loop guard does suppress the Discord-authored
comment with HTTP 200 and no outbound call, but the response status field is
"success" (message "Ignored Discord user comment"), not "ignored". -/
theorem C4_counterexample_status_is_success :
    (processPayload (Json.obj [("ticket", Json.obj [("id", Json.int 7),
      ("comment", Json.obj [("body", Json.str "fyi"),
        ("author", Json.obj [("name", Json.str "discord-bot99")])])])]) (some 204)).resp.code = 200
    ∧ (processPayload (Json.obj [("ticket", Json.obj [("id", Json.int 7),
      ("comment", Json.obj [("body", Json.str "fyi"),
        ("author", Json.obj [("name", Json.str "discord-bot99")])])])]) (some 204)).resp.status = "success"
    ∧ (processPayload (Json.obj [("ticket", Json.obj [("id", Json.int 7),
      ("comment", Json.obj [("body", Json.str "fyi"),
        ("author", Json.obj [("name", Json.str "discord-bot99")])])])]) (some 204)).resp.status ≠ "ignored"
    ∧ (processPayload (Json.obj [("ticket", Json.obj [("id", Json.int 7),
      ("comment", Json.obj [("body", Json.str "fyi"),
        ("author", Json.obj [("name", Json.str "discord-bot99")])])])]) (some 204)).calls = [] :=
  ⟨rfl, rfl, by decide, rfl⟩

/-- C4 amended: for every payload passing the comment-body validation whose
extracted author name contains the loop-guard sentinel (case-insensitive),
the processing suppresses forwarding: HTTP 200, status "success" with message
"Ignored Discord user comment", and no outbound call. -/
theorem C4_loop_guard_suppresses_forwarding (data : Json) (d : Option Nat) (t : Triple)
    (he : extractTriple data = .ok t)
    (hb : truthyOpt t.comment_body = true)
    (hs : pySliceOk (t.comment_body.getD Json.null) = true)
    (hg : loopGuardFires t.author_name = true) :
    processPayload data d = ⟨⟨200, "success", "Ignored Discord user comment", none⟩, []⟩ := by
  unfold processPayload
  rw [discord_url_configured, he]
  simp [sliceRaise, hb, hs, hg]

/-- C4 witness: concrete application of the amended theorem. -/
theorem C4_loop_guard_suppresses_forwarding_witness :
    extractTriple (Json.obj [("ticket", Json.obj [("id", Json.int 12),
      ("comment", Json.obj [("body", Json.str "hello"),
        ("author", Json.obj [("name", Json.str "Discord-kev@company.com")])])])])
      = .ok ⟨some (Json.int 12), some (Json.str "hello"), Json.str "Discord-kev@company.com"⟩
    ∧ truthyOpt (some (Json.str "hello")) = true
    ∧ pySliceOk ((some (Json.str "hello")).getD Json.null) = true
    ∧ loopGuardFires (Json.str "Discord-kev@company.com") = true
    ∧ processPayload (Json.obj [("ticket", Json.obj [("id", Json.int 12),
        ("comment", Json.obj [("body", Json.str "hello"),
          ("author", Json.obj [("name", Json.str "Discord-kev@company.com")])])])]) (some 204)
      = ⟨⟨200, "success", "Ignored Discord user comment", none⟩, []⟩ :=
  ⟨rfl, rfl, rfl, rfl, C4_loop_guard_suppresses_forwarding _ (some 204) _ rfl rfl rfl rfl⟩

/-- Reduction of the post-parse processing for payloads that reach the
Discord dispatch of app.py lines 282-301. -/
theorem processPayload_dispatch (data : Json) (d : Option Nat) (t : Triple)
    (he : extractTriple data = .ok t)
    (hb : truthyOpt t.comment_body = true)
    (hs : pySliceOk (t.comment_body.getD Json.null) = true)
    (hg : loopGuardFires t.author_name = false) :
    processPayload data d =
      let tid := match t.ticket_id with
        | some v => if truthy v then v else Json.str "Unknown"
        | none => Json.str "Unknown"
      let call := OutboundCall.discord ("💬 Update on Ticket #" ++ pyStr tid)
        ("**From " ++ pyStr t.author_name ++ ":**\n\n" ++ pyStr (t.comment_body.getD Json.null))
        3447003
      match d with
      | none => ⟨⟨500, "error", "Server error: ConnectionError", none⟩, [call]⟩
      | some code =>
        if code = 204 then
          ⟨⟨200, "success", "Comment sent to Discord successfully", none⟩, [call]⟩
        else
          ⟨⟨500, "error", "Discord API returned " ++ toString code, none⟩, [call]⟩ := by
  unfold processPayload
  rw [discord_url_configured, he]
  simp [sliceRaise, hb, hs, hg]

/-- C6 counterexample: at the Discord dispatch, an HTTP 200 reply is
classified as a failure (HTTP 500, status "error"), while 204 is a success:
the webhook forwarding path of app.py line 290 accepts only 204. -/
theorem C6_counterexample_200_classified_failure :
    (processPayload (Json.obj [("ticket", Json.obj [("id", Json.int 21),
      ("comment", Json.obj [("body", Json.str "ok"),
        ("author", Json.obj [("name", Json.str "Zed")])])])]) (some 200)).resp.code = 500
    ∧ (processPayload (Json.obj [("ticket", Json.obj [("id", Json.int 21),
      ("comment", Json.obj [("body", Json.str "ok"),
        ("author", Json.obj [("name", Json.str "Zed")])])])]) (some 200)).resp.status = "error"
    ∧ (processPayload (Json.obj [("ticket", Json.obj [("id", Json.int 21),
      ("comment", Json.obj [("body", Json.str "ok"),
        ("author", Json.obj [("name", Json.str "Zed")])])])]) (some 200)).resp.message
        = "Discord API returned 200"
    ∧ (processPayload (Json.obj [("ticket", Json.obj [("id", Json.int 21),
      ("comment", Json.obj [("body", Json.str "ok"),
        ("author", Json.obj [("name", Json.str "Zed")])])])]) (some 204)).resp.status = "success" :=
  ⟨rfl, rfl, rfl, rfl⟩

/-- C6 amended: on the webhook forwarding path, exactly HTTP 204 from the
chat webhook is classified as success; every other status (200 included) and
every transport failure yields an error response; exactly one outbound call
is issued regardless of the outcome. -/
theorem C6_only_204_is_success (data : Json) (t : Triple)
    (he : extractTriple data = .ok t)
    (hb : truthyOpt t.comment_body = true)
    (hs : pySliceOk (t.comment_body.getD Json.null) = true)
    (hg : loopGuardFires t.author_name = false) :
    ((processPayload data (some 204)).resp.code = 200
      ∧ (processPayload data (some 204)).resp.status = "success")
    ∧ (∀ c : Nat, c ≠ 204 → (processPayload data (some c)).resp.code = 500
        ∧ (processPayload data (some c)).resp.status = "error"
        ∧ (processPayload data (some c)).resp.message = "Discord API returned " ++ toString c)
    ∧ ((processPayload data none).resp.code = 500
        ∧ (processPayload data none).resp.status = "error")
    ∧ (∀ d : Option Nat, (processPayload data d).calls.length = 1) := by
  refine ⟨?_, ?_, ?_, ?_⟩
  · rw [processPayload_dispatch data (some 204) t he hb hs hg]
    simp
  · intro c hc
    rw [processPayload_dispatch data (some c) t he hb hs hg]
    simp [hc]
  · rw [processPayload_dispatch data none t he hb hs hg]
    simp
  · intro d
    rw [processPayload_dispatch data d t he hb hs hg]
    cases d with
    | none => simp
    | some c =>
      by_cases hc : c = 204 <;> simp [hc]

/-- C6 witness: concrete application of the amended theorem, with the
non-204 branch instantiated at status 200. -/
theorem C6_only_204_is_success_witness :
    extractTriple (Json.obj [("ticket", Json.obj [("id", Json.int 33),
      ("comment", Json.obj [("body", Json.str "news"),
        ("author", Json.obj [("name", Json.str "Mia")])])])])
      = .ok ⟨some (Json.int 33), some (Json.str "news"), Json.str "Mia"⟩
    ∧ truthyOpt (some (Json.str "news")) = true
    ∧ pySliceOk ((some (Json.str "news")).getD Json.null) = true
    ∧ loopGuardFires (Json.str "Mia") = false
    ∧ (processPayload (Json.obj [("ticket", Json.obj [("id", Json.int 33),
        ("comment", Json.obj [("body", Json.str "news"),
          ("author", Json.obj [("name", Json.str "Mia")])])])]) (some 204)).resp.status = "success"
    ∧ (200 : Nat) ≠ 204
    ∧ (processPayload (Json.obj [("ticket", Json.obj [("id", Json.int 33),
        ("comment", Json.obj [("body", Json.str "news"),
          ("author", Json.obj [("name", Json.str "Mia")])])])]) (some 200)).resp.code = 500
    ∧ (processPayload (Json.obj [("ticket", Json.obj [("id", Json.int 33),
        ("comment", Json.obj [("body", Json.str "news"),
          ("author", Json.obj [("name", Json.str "Mia")])])])]) none).resp.code = 500
    ∧ (processPayload (Json.obj [("ticket", Json.obj [("id", Json.int 33),
        ("comment", Json.obj [("body", Json.str "news"),
          ("author", Json.obj [("name", Json.str "Mia")])])])]) (some 200)).calls.length = 1 :=
  by
  have h := C6_only_204_is_success
    (Json.obj [("ticket", Json.obj [("id", Json.int 33),
      ("comment", Json.obj [("body", Json.str "news"),
        ("author", Json.obj [("name", Json.str "Mia")])])])])
    ⟨some (Json.int 33), some (Json.str "news"), Json.str "Mia"⟩ rfl rfl rfl rfl
  exact ⟨rfl, rfl, rfl, rfl, h.1.2, by decide, (h.2.1 200 (by decide)).1,
    h.2.2.1.1, h.2.2.2 (some 200)⟩

/-- Inversion of a successful method-1 extraction: success forces the comment
and author structures to be dictionaries (possibly defaulted to empty), and
determines every extracted field. -/
theorem extractM1_ok_inv (tkvs : List (String × Json)) (tr : Triple)
    (h : extractM1 (Json.obj tkvs) = .ok tr) :
    ∃ ckvs akvs,
      (lookupKvs tkvs "comment").getD (Json.obj []) = Json.obj ckvs
      ∧ (lookupKvs ckvs "author").getD (Json.obj []) = Json.obj akvs
      ∧ tr = ⟨lookupKvs tkvs "id",
          pyOr (lookupKvs ckvs "body") (lookupKvs ckvs "value"),
          pyOrJ (lookupKvs akvs "name")
            ((lookupKvs akvs "author_name").getD (Json.str "Support Agent"))⟩ := by
  cases hcm : (lookupKvs tkvs "comment").getD (Json.obj []) with
  | obj ckvs =>
    cases ham : (lookupKvs ckvs "author").getD (Json.obj []) with
    | obj akvs =>
      refine ⟨ckvs, akvs, rfl, ham, ?_⟩
      simp [extractM1, dictGet, hcm, ham] at h
      exact h.symm
    | null => simp [extractM1, dictGet, hcm, ham] at h
    | bool b => simp [extractM1, dictGet, hcm, ham] at h
    | int n => simp [extractM1, dictGet, hcm, ham] at h
    | str s => simp [extractM1, dictGet, hcm, ham] at h
    | arr xs => simp [extractM1, dictGet, hcm, ham] at h
  | null => simp [extractM1, dictGet, hcm] at h
  | bool b => simp [extractM1, dictGet, hcm] at h
  | int n => simp [extractM1, dictGet, hcm] at h
  | str s => simp [extractM1, dictGet, hcm] at h
  | arr xs => simp [extractM1, dictGet, hcm] at h

/-- C9 counterexample: with ticket.comment.body present but equal to the
empty string and ticket.comment.value present, extraction yields the value
field, not the body field; likewise an empty author.name loses to
author.author_name.  Presence alone does not decide the preference. -/
theorem C9_counterexample_present_but_falsy_loses :
    extractTriple (Json.obj [("ticket", Json.obj [("comment", Json.obj [
      ("body", Json.str ""), ("value", Json.str "fallback"),
      ("author", Json.obj [("name", Json.str ""),
        ("author_name", Json.str "real author")])])])])
      = .ok ⟨none, some (Json.str "fallback"), Json.str "real author"⟩
    ∧ ((some (Json.str "fallback") : Option Json) = some (Json.str "") → False)
    ∧ (Json.str "real author" = Json.str "" → False) :=
  ⟨rfl, by simp, by simp⟩

/-- C9 amended: for dictionary payloads with a ticket field, extraction reads
ticket.id as ticket_id; it picks ticket.comment.body when that value is
present and truthy, falling back to ticket.comment.value when body is present
but falsy; it picks ticket.comment.author.name when present and truthy; and
the flat-field shape is consulted only when no ticket field is present. -/
theorem C9_truthy_preference :
    (∀ (data t i : Json), jGet data "ticket" = some t → jGet t "id" = some i →
      ∀ tr, extractTriple data = .ok tr → tr.ticket_id = some i)
    ∧ (∀ (data t c b : Json), jGet data "ticket" = some t → jGet t "comment" = some c →
        jGet c "body" = some b → truthy b = true →
        ∀ tr, extractTriple data = .ok tr → tr.comment_body = some b)
    ∧ (∀ (data t c b v : Json), jGet data "ticket" = some t → jGet t "comment" = some c →
        jGet c "body" = some b → truthy b = false → jGet c "value" = some v →
        ∀ tr, extractTriple data = .ok tr → tr.comment_body = some v)
    ∧ (∀ (data t c a nm : Json), jGet data "ticket" = some t → jGet t "comment" = some c →
        jGet c "author" = some a → jGet a "name" = some nm → truthy nm = true →
        ∀ tr, extractTriple data = .ok tr → tr.author_name = nm)
    ∧ (∀ (kvs : List (String × Json)) (b : Json), lookupKvs kvs "ticket" = none →
        lookupKvs kvs "body" = some b → truthy b = true →
        ∀ tr, extractTriple (Json.obj kvs) = .ok tr → tr.comment_body = some b) := by
  refine ⟨?_, ?_, ?_, ?_, ?_⟩
  · intro data t i h1 h2 tr htr
    obtain ⟨kvs, rfl, hk⟩ := jGet_some_obj _ _ _ h1
    obtain ⟨tkvs, rfl, hk2⟩ := jGet_some_obj _ _ _ h2
    simp only [extractTriple, hk] at htr
    obtain ⟨ckvs, akvs, hcm, ham, rfl⟩ := extractM1_ok_inv _ _ htr
    simp [hk2]
  · intro data t c b h1 h2 h3 hb tr htr
    obtain ⟨kvs, rfl, hk⟩ := jGet_some_obj _ _ _ h1
    obtain ⟨tkvs, rfl, hk2⟩ := jGet_some_obj _ _ _ h2
    obtain ⟨ckvs, rfl, hk3⟩ := jGet_some_obj _ _ _ h3
    simp only [extractTriple, hk] at htr
    obtain ⟨ckvs2, akvs, hcm, ham, rfl⟩ := extractM1_ok_inv _ _ htr
    rw [hk2] at hcm
    simp only [Option.getD_some, Json.obj.injEq] at hcm
    subst hcm
    simp [hk3, pyOr, hb]
  · intro data t c b v h1 h2 h3 hb h4 tr htr
    obtain ⟨kvs, rfl, hk⟩ := jGet_some_obj _ _ _ h1
    obtain ⟨tkvs, rfl, hk2⟩ := jGet_some_obj _ _ _ h2
    obtain ⟨ckvs, rfl, hk3⟩ := jGet_some_obj _ _ _ h3
    simp only [extractTriple, hk] at htr
    obtain ⟨ckvs2, akvs, hcm, ham, rfl⟩ := extractM1_ok_inv _ _ htr
    rw [hk2] at hcm
    simp only [Option.getD_some, Json.obj.injEq] at hcm
    subst hcm
    simp only [jGet] at h4
    simp [hk3, h4, pyOr, hb]
  · intro data t c a nm h1 h2 h3 h4 hnm tr htr
    obtain ⟨kvs, rfl, hk⟩ := jGet_some_obj _ _ _ h1
    obtain ⟨tkvs, rfl, hk2⟩ := jGet_some_obj _ _ _ h2
    obtain ⟨ckvs, rfl, hk3⟩ := jGet_some_obj _ _ _ h3
    obtain ⟨akvs0, rfl, hk4⟩ := jGet_some_obj _ _ _ h4
    simp only [extractTriple, hk] at htr
    obtain ⟨ckvs2, akvs, hcm, ham, rfl⟩ := extractM1_ok_inv _ _ htr
    rw [hk2] at hcm
    simp only [Option.getD_some, Json.obj.injEq] at hcm
    subst hcm
    rw [hk3] at ham
    simp only [Option.getD_some, Json.obj.injEq] at ham
    subst ham
    simp [hk4, pyOrJ, hnm]
  · intro kvs b hkt hkb htb tr htr
    simp only [extractTriple, hkt, Except.ok.injEq] at htr
    subst htr
    simp [extractM2, hkb, pyOr, htb]

/-- C9 witness: concrete applications of every conjunct of the amended
theorem. -/
theorem C9_truthy_preference_witness :
    (jGet (Json.obj [("ticket", Json.obj [("id", Json.int 64),
        ("comment", Json.obj [("body", Json.str "b64"), ("value", Json.str "v64"),
          ("author", Json.obj [("name", Json.str "Ann"),
            ("author_name", Json.str "Bee")])])])]) "ticket"
      = some (Json.obj [("id", Json.int 64),
        ("comment", Json.obj [("body", Json.str "b64"), ("value", Json.str "v64"),
          ("author", Json.obj [("name", Json.str "Ann"),
            ("author_name", Json.str "Bee")])])]))
    ∧ (Triple.ticket_id ⟨some (Json.int 64), some (Json.str "b64"), Json.str "Ann"⟩
        = some (Json.int 64)
      ∧ Triple.comment_body ⟨some (Json.int 64), some (Json.str "b64"), Json.str "Ann"⟩
        = some (Json.str "b64")
      ∧ Triple.author_name ⟨some (Json.int 64), some (Json.str "b64"), Json.str "Ann"⟩
        = Json.str "Ann")
    ∧ Triple.comment_body ⟨none, some (Json.str "v65"), Json.str "Support Agent"⟩
        = some (Json.str "v65")
    ∧ Triple.comment_body ⟨none, some (Json.str "flat66"), Json.str "Support Agent"⟩
        = some (Json.str "flat66") := by
  have h := C9_truthy_preference
  refine ⟨rfl, ⟨?_, ?_, ?_⟩, ?_, ?_⟩
  · exact h.1 (Json.obj [("ticket", Json.obj [("id", Json.int 64),
      ("comment", Json.obj [("body", Json.str "b64"), ("value", Json.str "v64"),
        ("author", Json.obj [("name", Json.str "Ann"), ("author_name", Json.str "Bee")])])])])
      (Json.obj [("id", Json.int 64),
        ("comment", Json.obj [("body", Json.str "b64"), ("value", Json.str "v64"),
          ("author", Json.obj [("name", Json.str "Ann"), ("author_name", Json.str "Bee")])])])
      (Json.int 64) rfl rfl _ rfl
  · exact h.2.1 (Json.obj [("ticket", Json.obj [("id", Json.int 64),
      ("comment", Json.obj [("body", Json.str "b64"), ("value", Json.str "v64"),
        ("author", Json.obj [("name", Json.str "Ann"), ("author_name", Json.str "Bee")])])])])
      (Json.obj [("id", Json.int 64),
        ("comment", Json.obj [("body", Json.str "b64"), ("value", Json.str "v64"),
          ("author", Json.obj [("name", Json.str "Ann"), ("author_name", Json.str "Bee")])])])
      (Json.obj [("body", Json.str "b64"), ("value", Json.str "v64"),
        ("author", Json.obj [("name", Json.str "Ann"), ("author_name", Json.str "Bee")])])
      (Json.str "b64") rfl rfl rfl rfl _ rfl
  · exact h.2.2.2.1 (Json.obj [("ticket", Json.obj [("id", Json.int 64),
      ("comment", Json.obj [("body", Json.str "b64"), ("value", Json.str "v64"),
        ("author", Json.obj [("name", Json.str "Ann"), ("author_name", Json.str "Bee")])])])])
      (Json.obj [("id", Json.int 64),
        ("comment", Json.obj [("body", Json.str "b64"), ("value", Json.str "v64"),
          ("author", Json.obj [("name", Json.str "Ann"), ("author_name", Json.str "Bee")])])])
      (Json.obj [("body", Json.str "b64"), ("value", Json.str "v64"),
        ("author", Json.obj [("name", Json.str "Ann"), ("author_name", Json.str "Bee")])])
      (Json.obj [("name", Json.str "Ann"), ("author_name", Json.str "Bee")])
      (Json.str "Ann") rfl rfl rfl rfl rfl _ rfl
  · exact h.2.2.1 (Json.obj [("ticket", Json.obj [("comment", Json.obj [
      ("body", Json.str ""), ("value", Json.str "v65")])])])
      (Json.obj [("comment", Json.obj [("body", Json.str ""), ("value", Json.str "v65")])])
      (Json.obj [("body", Json.str ""), ("value", Json.str "v65")])
      (Json.str "") (Json.str "v65") rfl rfl rfl rfl rfl _ rfl
  · exact h.2.2.2.2 [("body", Json.str "flat66")] (Json.str "flat66") rfl rfl rfl _ rfl

/-- Reduction of the ticket-creation handler past its (statically satisfied)
configuration checks. -/
theorem create_ticket_reduce (parsed : Option Json) (zenResp : Option ZendeskResponse)
    (dr : Option Nat) :
    create_ticket parsed zenResp dr =
      match createFields (dataOf parsed) with
      | .error e => ⟨⟨500, "error", e, none⟩, []⟩
      | .ok (subject, description, user) =>
        let zcall := OutboundCall.zendesk (buildTicketData subject description user)
        match zenResp with
        | none => ⟨⟨500, "error", "ConnectionError", none⟩, [zcall]⟩
        | some r =>
          if r.status = 201 then
            match getTicketId r.bodyJson with
            | .error e => ⟨⟨500, "error", e, none⟩, [zcall]⟩
            | .ok tid =>
              let dcall := OutboundCall.discord "🎫 New Ticket Created"
                ("**Ticket #" ++ pyStr tid ++ "**\n**User:** " ++ pyStr user
                  ++ "\n**Subject:** " ++ pyStr subject) 3066993
              match dr with
              | none => ⟨⟨500, "error", "ConnectionError", none⟩, [zcall, dcall]⟩
              | some _ => ⟨⟨200, "success", "Ticket created successfully", some tid⟩, [zcall, dcall]⟩
          else ⟨⟨500, "error", "Zendesk API error: " ++ toString r.status, none⟩, [zcall]⟩ := by
  unfold create_ticket
  rw [zendesk_token_configured, discord_url_configured]
  rfl

/-- C5 counterexample: a creation request with description set to the empty
string is not rejected: the Zendesk network call is issued (with the empty
description embedded), falsifying rejection before any network call. -/
theorem C5_counterexample_network_call_issued :
    (create_ticket (some (Json.obj [("subject", Json.str "Help"),
        ("description", Json.str ""), ("user", Json.str "kev")])) none (some 204)).calls
      = [OutboundCall.zendesk (buildTicketData (Json.str "Help") (Json.str "") (Json.str "kev"))]
    ∧ [OutboundCall.zendesk (buildTicketData (Json.str "Help") (Json.str "") (Json.str "kev"))]
      ≠ ([] : List OutboundCall) :=
  ⟨rfl, by simp⟩

/-- C5 amended: ticket creation with an empty description proceeds for every
environment: the first outbound call is always the Zendesk POST, whose
payload embeds the empty description in the comment body (the literal
default applies only when the description key is absent). -/
theorem C5_empty_description_not_rejected (s u : String) (zr : Option ZendeskResponse)
    (dr : Option Nat) :
    (create_ticket (some (Json.obj [("subject", Json.str s),
        ("description", Json.str ""), ("user", Json.str u)])) zr dr).calls.head?
      = some (OutboundCall.zendesk (buildTicketData (Json.str s) (Json.str "") (Json.str u)))
    ∧ ((jGet (buildTicketData (Json.str s) (Json.str "") (Json.str u)) "ticket").bind
        (fun t => jGet t "comment")).bind (fun c => jGet c "body")
      = some (Json.str ("From: " ++ u ++ "\n\n")) := by
  have hcf : createFields (dataOf (some (Json.obj [("subject", Json.str s),
      ("description", Json.str ""), ("user", Json.str u)])))
      = .ok (Json.str s, Json.str "", Json.str u) := rfl
  constructor
  · rw [create_ticket_reduce, hcf]
    rcases zr with _ | r
    · rfl
    · by_cases h201 : r.status = 201
      · rcases hti : getTicketId r.bodyJson with e | tid
        · simp [h201, hti]
        · rcases dr with _ | c <;> simp [h201, hti]
      · simp [h201]
  · simp [buildTicketData, jGet, lookupKvs, pyStr, String.append_empty]

/-- C7 counterexample: a 201 reply whose body lacks the ticket id makes the
handler report an error, so HTTP 201 alone does not imply a reported
success. -/
theorem C7_counterexample_201_without_success :
    (create_ticket (some (Json.obj [("subject", Json.str "a"),
        ("description", Json.str "x"), ("user", Json.str "bob")]))
      (some ⟨201, some (Json.obj []), "created"⟩) (some 204)).resp.status = "error"
    ∧ (create_ticket (some (Json.obj [("subject", Json.str "a"),
        ("description", Json.str "x"), ("user", Json.str "bob")]))
      (some ⟨201, some (Json.obj []), "created"⟩) (some 204)).resp.code = 500
    ∧ (⟨201, some (Json.obj []), "created"⟩ : ZendeskResponse).status = 201 :=
  ⟨rfl, rfl, rfl⟩

/-- C7 amended: a reported success requires an HTTP 201 upstream reply; every
non-201 reply yields HTTP 500 with the upstream status embedded in the
message and only the Zendesk call issued (no notification; the code keeps no
ticket map at all); and a 201 reply whose body carries the id, followed by a
non-raising notifier call, is reported as success with that id. -/
theorem C7_success_only_with_201 :
    (∀ parsed zr dr, (create_ticket parsed zr dr).resp.status = "success" →
      ∃ r, zr = some r ∧ r.status = 201)
    ∧ (∀ parsed dr (r : ZendeskResponse) (s d u : Json),
        createFields (dataOf parsed) = .ok (s, d, u) → r.status ≠ 201 →
        (create_ticket parsed (some r) dr).resp
          = ⟨500, "error", "Zendesk API error: " ++ toString r.status, none⟩
        ∧ (create_ticket parsed (some r) dr).calls
          = [OutboundCall.zendesk (buildTicketData s d u)])
    ∧ (∀ parsed (r : ZendeskResponse) (s d u tid : Json) (c : Nat),
        createFields (dataOf parsed) = .ok (s, d, u) → r.status = 201 →
        getTicketId r.bodyJson = .ok tid →
        (create_ticket parsed (some r) (some c)).resp.status = "success"
        ∧ (create_ticket parsed (some r) (some c)).resp.ticket_id = some tid) := by
  refine ⟨?_, ?_, ?_⟩
  · intro parsed zr dr h
    rw [create_ticket_reduce] at h
    rcases hcf : createFields (dataOf parsed) with e | f
    · rw [hcf] at h
      simp at h
    · obtain ⟨s, d, u⟩ := f
      rw [hcf] at h
      rcases zr with _ | r
      · simp at h
      · by_cases h201 : r.status = 201
        · exact ⟨r, rfl, h201⟩
        · simp [h201] at h
  · intro parsed dr r s d u hcf h201
    rw [create_ticket_reduce, hcf]
    constructor <;> simp [h201]
  · intro parsed r s d u tid c hcf h201 hid
    rw [create_ticket_reduce, hcf]
    constructor <;> simp [h201, hid]

/-- C7 witness: concrete applications of every conjunct of the amended
theorem. -/
theorem C7_success_only_with_201_witness :
    (∃ r, (some (⟨201, some (Json.obj [("ticket", Json.obj [("id", Json.int 9)])]), "ok"⟩
        : ZendeskResponse)) = some r ∧ r.status = 201)
    ∧ ((create_ticket (some (Json.obj [("description", Json.str "w7")]))
        (some ⟨404, none, "nf"⟩) (some 204)).resp
      = ⟨500, "error", "Zendesk API error: 404", none⟩
      ∧ (create_ticket (some (Json.obj [("description", Json.str "w7")]))
        (some ⟨404, none, "nf"⟩) (some 204)).calls
      = [OutboundCall.zendesk (buildTicketData (Json.str "Support Request")
          (Json.str "w7") (Json.str "Discord User"))])
    ∧ ((create_ticket (some (Json.obj [("description", Json.str "w7")]))
        (some ⟨201, some (Json.obj [("ticket", Json.obj [("id", Json.int 9)])]), "ok"⟩)
        (some 204)).resp.status = "success"
      ∧ (create_ticket (some (Json.obj [("description", Json.str "w7")]))
        (some ⟨201, some (Json.obj [("ticket", Json.obj [("id", Json.int 9)])]), "ok"⟩)
        (some 204)).resp.ticket_id = some (Json.int 9)) := by
  have h := C7_success_only_with_201
  refine ⟨?_, ?_, ?_⟩
  · exact h.1 (some (Json.obj [("description", Json.str "w7")]))
      (some ⟨201, some (Json.obj [("ticket", Json.obj [("id", Json.int 9)])]), "ok"⟩)
      (some 204) rfl
  · exact h.2.1 (some (Json.obj [("description", Json.str "w7")])) (some 204)
      ⟨404, none, "nf"⟩ (Json.str "Support Request") (Json.str "w7")
      (Json.str "Discord User") rfl (by decide)
  · exact h.2.2 (some (Json.obj [("description", Json.str "w7")]))
      ⟨201, some (Json.obj [("ticket", Json.obj [("id", Json.int 9)])]), "ok"⟩
      (Json.str "Support Request") (Json.str "w7") (Json.str "Discord User")
      (Json.int 9) 204 rfl rfl rfl

/-- C8 counterexample: after Zendesk accepts the creation with 201 (id 77), a
transport exception on the notification POST flips the reported outcome to
HTTP 500 "error"; the same creation with a reachable notifier reports
success.  The notifier failure did change the outcome. -/
theorem C8_counterexample_transport_exception_flips_outcome :
    (create_ticket (some (Json.obj [("subject", Json.str "s8"),
        ("description", Json.str "d8"), ("user", Json.str "amy")]))
      (some ⟨201, some (Json.obj [("ticket", Json.obj [("id", Json.int 77)])]), "created"⟩)
      none).resp = ⟨500, "error", "ConnectionError", none⟩
    ∧ (create_ticket (some (Json.obj [("subject", Json.str "s8"),
        ("description", Json.str "d8"), ("user", Json.str "amy")]))
      (some ⟨201, some (Json.obj [("ticket", Json.obj [("id", Json.int 77)])]), "created"⟩)
      (some 204)).resp = ⟨200, "success", "Ticket created successfully", some (Json.int 77)⟩ :=
  ⟨rfl, rfl⟩

/-- C8 amended: after a 201 with a well-formed body, the notifier HTTP status
is ignored entirely (any two statuses give identical results, and every
status reports success with the created id), but a notifier transport
exception escapes to the outer catch and is reported as HTTP 500 "error". -/
theorem C8_notifier_status_ignored_exception_not (parsed : Option Json)
    (r : ZendeskResponse) (s d u tid : Json)
    (hcf : createFields (dataOf parsed) = .ok (s, d, u))
    (h201 : r.status = 201) (hid : getTicketId r.bodyJson = .ok tid) :
    (∀ a b : Nat, create_ticket parsed (some r) (some a)
        = create_ticket parsed (some r) (some b))
    ∧ (∀ c : Nat, (create_ticket parsed (some r) (some c)).resp
        = ⟨200, "success", "Ticket created successfully", some tid⟩)
    ∧ (create_ticket parsed (some r) none).resp = ⟨500, "error", "ConnectionError", none⟩ := by
  refine ⟨?_, ?_, ?_⟩
  · intro a b
    simp only [create_ticket_reduce, hcf]
  · intro c
    simp only [create_ticket_reduce, hcf]
    simp [h201, hid]
  · simp only [create_ticket_reduce, hcf]
    simp [h201, hid]

/-- C8 witness: concrete application of the amended theorem, with the
status-irrelevance part instantiated at statuses 204 and 500. -/
theorem C8_notifier_status_ignored_exception_not_witness :
    createFields (dataOf (some (Json.obj [("subject", Json.str "w8"),
        ("description", Json.str "make a ticket"), ("user", Json.str "lee")])))
      = .ok (Json.str "w8", Json.str "make a ticket", Json.str "lee")
    ∧ (⟨201, some (Json.obj [("ticket", Json.obj [("id", Json.int 31)])]), "ok"⟩
        : ZendeskResponse).status = 201
    ∧ getTicketId (some (Json.obj [("ticket", Json.obj [("id", Json.int 31)])]))
      = .ok (Json.int 31)
    ∧ (create_ticket (some (Json.obj [("subject", Json.str "w8"),
        ("description", Json.str "make a ticket"), ("user", Json.str "lee")]))
      (some ⟨201, some (Json.obj [("ticket", Json.obj [("id", Json.int 31)])]), "ok"⟩)
      (some 204)
      = create_ticket (some (Json.obj [("subject", Json.str "w8"),
        ("description", Json.str "make a ticket"), ("user", Json.str "lee")]))
      (some ⟨201, some (Json.obj [("ticket", Json.obj [("id", Json.int 31)])]), "ok"⟩)
      (some 500))
    ∧ (create_ticket (some (Json.obj [("subject", Json.str "w8"),
        ("description", Json.str "make a ticket"), ("user", Json.str "lee")]))
      (some ⟨201, some (Json.obj [("ticket", Json.obj [("id", Json.int 31)])]), "ok"⟩)
      (some 500)).resp = ⟨200, "success", "Ticket created successfully", some (Json.int 31)⟩
    ∧ (create_ticket (some (Json.obj [("subject", Json.str "w8"),
        ("description", Json.str "make a ticket"), ("user", Json.str "lee")]))
      (some ⟨201, some (Json.obj [("ticket", Json.obj [("id", Json.int 31)])]), "ok"⟩)
      none).resp = ⟨500, "error", "ConnectionError", none⟩ := by
  have h := C8_notifier_status_ignored_exception_not
    (some (Json.obj [("subject", Json.str "w8"),
      ("description", Json.str "make a ticket"), ("user", Json.str "lee")]))
    ⟨201, some (Json.obj [("ticket", Json.obj [("id", Json.int 31)])]), "ok"⟩
    (Json.str "w8") (Json.str "make a ticket") (Json.str "lee") (Json.int 31)
    rfl rfl rfl
  exact ⟨rfl, rfl, rfl, h.1 204 500, h.2.1 500, h.2.2⟩

/-- C10: the synthesized requester identity discord-{user}@company.com always
contains the loop-guard sentinel "discord-", and every author-name string
containing the synthesized identity triggers the case-insensitive loop-guard
check, so the webhook handler would suppress it. -/
theorem C10_synth_identity_triggers_loop_guard (user : Json) (author : String)
    (h : pySubstrB author (synthEmail user) = true) :
    pySubstrB (synthEmail user) "discord-" = true
    ∧ loopGuardFires (Json.str author) = true := by
  have hpre : ("discord-" : String).data <:+: (synthEmail user).data := by
    refine ⟨[], (pyStr user).data ++ ("@company.com" : String).data, ?_⟩
    simp [synthEmail, String.data_append]
  refine ⟨decide_eq_true hpre, ?_⟩
  have hinf : ("discord-" : String).data <:+: author.data :=
    hpre.trans (of_decide_eq_true h)
  have hmap := hinf.map Char.toLower
  have hid : ("discord-" : String).data.map Char.toLower = ("discord-" : String).data := by
    decide
  rw [hid] at hmap
  exact decide_eq_true hmap

/-- C10 witness: a concrete author name containing the synthesized identity
of user kev is suppressed. -/
theorem C10_synth_identity_triggers_loop_guard_witness :
    pySubstrB "Helpdesk discord-kev@company.com bot" (synthEmail (Json.str "kev")) = true
    ∧ (pySubstrB (synthEmail (Json.str "kev")) "discord-" = true
      ∧ loopGuardFires (Json.str "Helpdesk discord-kev@company.com bot") = true) :=
  ⟨rfl, C10_synth_identity_triggers_loop_guard (Json.str "kev")
    "Helpdesk discord-kev@company.com bot" rfl⟩
